import Mathlib

/-!
Verification of the error-response subsystem of the vehicle-information-service
repository (src/vehicle-information-service/src/api_error.rs), shallowly
embedded in Lean 4.

Rust machine integers are modelled as Nat (u16 status codes and u128
timestamps never overflow in this code: statuses are below 1000 and the
timestamps are milliseconds since the Unix epoch). The side effect of
reading the clock (the crate-level unix_timestamp_ms function) is made
explicit: every function that calls it takes the value read as an extra
argument named now.
-/

/-- Rust type http::status::StatusCode, represented by its numeric code
(the value of as_u16). -/
abbrev StatusCode := Nat

namespace StatusCode

def NOT_MODIFIED : StatusCode := 304

def BAD_REQUEST : StatusCode := 400

def UNAUTHORIZED : StatusCode := 401

def FORBIDDEN : StatusCode := 403

def NOT_FOUND : StatusCode := 404

def NOT_ACCEPTABLE : StatusCode := 406

def TOO_MANY_REQUESTS : StatusCode := 429

def INTERNAL_SERVER_ERROR : StatusCode := 500

def BAD_GATEWAY : StatusCode := 502

def SERVICE_UNAVAILABLE : StatusCode := 503

def GATEWAY_TIMEOUT : StatusCode := 504

/-- The canonical_reason method of http::status::StatusCode: the canonical
reason phrase for each recognized status code, None otherwise. The table
follows the status_codes! invocation of the http crate. -/
def canonical_reason : StatusCode → Option String
| 100 => some "Continue"
| 101 => some "Switching Protocols"
| 102 => some "Processing"
| 200 => some "OK"
| 201 => some "Created"
| 202 => some "Accepted"
| 203 => some "Non Authoritative Information"
| 204 => some "No Content"
| 205 => some "Reset Content"
| 206 => some "Partial Content"
| 207 => some "Multi-Status"
| 208 => some "Already Reported"
| 226 => some "IM Used"
| 300 => some "Multiple Choices"
| 301 => some "Moved Permanently"
| 302 => some "Found"
| 303 => some "See Other"
| 304 => some "Not Modified"
| 305 => some "Use Proxy"
| 307 => some "Temporary Redirect"
| 308 => some "Permanent Redirect"
| 400 => some "Bad Request"
| 401 => some "Unauthorized"
| 402 => some "Payment Required"
| 403 => some "Forbidden"
| 404 => some "Not Found"
| 405 => some "Method Not Allowed"
| 406 => some "Not Acceptable"
| 407 => some "Proxy Authentication Required"
| 408 => some "Request Timeout"
| 409 => some "Conflict"
| 410 => some "Gone"
| 411 => some "Length Required"
| 412 => some "Precondition Failed"
| 413 => some "Payload Too Large"
| 414 => some "URI Too Long"
| 415 => some "Unsupported Media Type"
| 416 => some "Range Not Satisfiable"
| 417 => some "Expectation Failed"
| 418 => some "I\x27m a teapot"
| 421 => some "Misdirected Request"
| 422 => some "Unprocessable Entity"
| 423 => some "Locked"
| 424 => some "Failed Dependency"
| 426 => some "Upgrade Required"
| 428 => some "Precondition Required"
| 429 => some "Too Many Requests"
| 431 => some "Request Header Fields Too Large"
| 451 => some "Unavailable For Legal Reasons"
| 500 => some "Internal Server Error"
| 501 => some "Not Implemented"
| 502 => some "Bad Gateway"
| 503 => some "Service Unavailable"
| 504 => some "Gateway Timeout"
| 505 => some "HTTP Version Not Supported"
| 506 => some "Variant Also Negotiates"
| 507 => some "Insufficient Storage"
| 508 => some "Loop Detected"
| 510 => some "Not Extended"
| 511 => some "Network Authentication Required"
| _ => none

end StatusCode

/-- Modelled from the spec: the request-identifier type ReqID from
api_type.rs, which is not under src/. Per the spec it has an integer
or a string wire form. -/
inductive ReqID where
| ReqIDInt (value : Nat)
| ReqIDString (value : String)
deriving DecidableEq, Repr

/-- Modelled from the spec: the subscription-identifier type SubscriptionID
from api_type.rs, which is not under src/. Per the spec it has an integer
or a string wire form; the integer constructor name SubscriptionIDInt is
taken from its use in api_error.rs. -/
inductive SubscriptionID where
| SubscriptionIDInt (value : Nat)
| SubscriptionIDString (value : String)
deriving DecidableEq, Repr

/-- Rust struct ActionError of api_error.rs: error number, reason and
message returned to the client. -/
structure ActionError where
  number : Nat
  reason : String
  message : String
deriving DecidableEq, Repr

/-- Rust type std::io::Error, modelled as an error kind plus an arbitrary
detail string; the conversions in api_error.rs only ever log it. -/
structure IoError where
  kind : Nat
  detail : String
deriving DecidableEq, Repr

/-- ActionError::new of api_error.rs. -/
def ActionError.new (http_status_code : StatusCode) (message : String) : ActionError :=
  { number := http_status_code
    reason := (StatusCode.canonical_reason http_status_code).getD ""
    message := message }

/-- The impl From of io::Error for ActionError in api_error.rs. The Rust
code logs the error with warn! and builds the value from
StatusCode::INTERNAL_SERVER_ERROR, ignoring the error's content. -/
def ActionError.from_io_error (_error : IoError) : ActionError :=
  { number := StatusCode.INTERNAL_SERVER_ERROR
    reason := (StatusCode.canonical_reason StatusCode.INTERNAL_SERVER_ERROR).getD ""
    message := "" }

/-- The impl From of StatusCode for ActionError in api_error.rs. -/
def ActionError.from_status_code (status_code : StatusCode) : ActionError :=
  { number := status_code
    reason := (StatusCode.canonical_reason status_code).getD ""
    message := "" }

/-- Rust enum ActionErrorResponse of api_error.rs, one variant per
protocol action, serde-tagged by the field named action. -/
inductive ActionErrorResponse where
| Authorize (request_id : ReqID) (error : ActionError) (timestamp : Nat)
| GetMetadata (request_id : ReqID) (error : ActionError) (timestamp : Nat)
| Get (request_id : ReqID) (error : ActionError) (timestamp : Nat)
| Set (request_id : ReqID) (error : ActionError) (timestamp : Nat)
| Subscribe (request_id : ReqID) (error : ActionError) (timestamp : Nat)
| Subscription (request_id : ReqID) (error : ActionError) (timestamp : Nat)
| SubscriptionNotification (error : ActionError) (timestamp : Nat) (subscription_id : SubscriptionID)
| Unsubscribe (request_id : ReqID) (error : ActionError) (timestamp : Nat) (subscription_id : SubscriptionID)
| UnsubscribeAll (request_id : ReqID) (error : ActionError) (timestamp : Nat)
deriving DecidableEq, Repr

/-- The impl From of io::Error for ActionErrorResponse in api_error.rs:
a SubscriptionNotification with ActionError::new(INTERNAL_SERVER_ERROR, ""),
the current timestamp and subscription id SubscriptionIDInt(0). The argument
now is the value unix_timestamp_ms() reads at the moment of conversion. -/
def ActionErrorResponse.from_io_error (now : Nat) (_ : IoError) : ActionErrorResponse :=
  ActionErrorResponse.SubscriptionNotification
    (ActionError.new StatusCode.INTERNAL_SERVER_ERROR "") now
    (SubscriptionID.SubscriptionIDInt 0)

/-- new_get_error of api_error.rs; now is the value unix_timestamp_ms()
reads at the moment of the call. -/
def new_get_error (now : Nat) (request_id : ReqID) (error : ActionError) : ActionErrorResponse :=
  ActionErrorResponse.Get request_id error now

/-- new_set_error of api_error.rs. -/
def new_set_error (now : Nat) (request_id : ReqID) (error : ActionError) : ActionErrorResponse :=
  ActionErrorResponse.Set request_id error now

/-- new_subscribe_error of api_error.rs. -/
def new_subscribe_error (now : Nat) (request_id : ReqID) (error : ActionError) : ActionErrorResponse :=
  ActionErrorResponse.Subscribe request_id error now

/-- new_unsubscribe_error of api_error.rs. -/
def new_unsubscribe_error (now : Nat) (request_id : ReqID) (subscription_id : SubscriptionID)
    (error : ActionError) : ActionErrorResponse :=
  ActionErrorResponse.Unsubscribe request_id error now subscription_id

/-- new_unsubscribe_all_error of api_error.rs. -/
def new_unsubscribe_all_error (now : Nat) (request_id : ReqID) (error : ActionError) :
    ActionErrorResponse :=
  ActionErrorResponse.UnsubscribeAll request_id error now

/-- new_get_metadata_error of api_error.rs. -/
def new_get_metadata_error (now : Nat) (request_id : ReqID) (error : ActionError) :
    ActionErrorResponse :=
  ActionErrorResponse.GetMetadata request_id error now

/-- new_authorize_error of api_error.rs. -/
def new_authorize_error (now : Nat) (request_id : ReqID) (error : ActionError) :
    ActionErrorResponse :=
  ActionErrorResponse.Authorize request_id error now

/-- new_deserialization_error of api_error.rs: StatusCode::BAD_REQUEST.into(). -/
def new_deserialization_error : ActionError :=
  ActionError.from_status_code StatusCode.BAD_REQUEST

/-- Rust tuple struct KnownError(StatusCode, reason, message) of api_error.rs. -/
structure KnownError where
  status : StatusCode
  reason : String
  message : String
deriving DecidableEq, Repr

/-- The impl From of KnownError for ActionError in api_error.rs: the three
fields are copied verbatim (the status through as_u16). -/
def ActionError.from_known (known_error : KnownError) : ActionError :=
  { number := known_error.status
    reason := known_error.reason
    message := known_error.message }

def NOT_MODIFIED : KnownError :=
  ⟨StatusCode.NOT_MODIFIED, "not_modified", "No changes have been made by the server."⟩

def BAD_REQUEST : KnownError :=
  ⟨StatusCode.BAD_REQUEST, "bad_request",
    "The server is unable to fulfill the client request because the request is malformed."⟩

def BAD_REQUEST_FILTER_INVALID : KnownError :=
  ⟨StatusCode.BAD_REQUEST, "filter_invalid", "Filter requested on non-primitive type."⟩

def UNAUTHORIZED_USER_TOKEN_EXPIRED : KnownError :=
  ⟨StatusCode.UNAUTHORIZED, "user_token_expired", "User token has expired."⟩

def UNAUTHORIZED_USER_TOKEN_INVALID : KnownError :=
  ⟨StatusCode.UNAUTHORIZED, "user_token_invalid", "User token is invalid."⟩

def UNAUTHORIZED_USER_TOKEN_MISSING : KnownError :=
  ⟨StatusCode.UNAUTHORIZED, "user_token_missing", "User token is missing."⟩

def UNAUTHORIZED_DEVICE_TOKEN_EXPIRED : KnownError :=
  ⟨StatusCode.UNAUTHORIZED, "device_token_expired", "Device token has expired."⟩

def UNAUTHORIZED_DEVICE_TOKEN_INVALID : KnownError :=
  ⟨StatusCode.UNAUTHORIZED, "device_token_invalid", "Device token is invalid."⟩

def UNAUTHORIZED_DEVICE_TOKEN_MISSING : KnownError :=
  ⟨StatusCode.UNAUTHORIZED, "device_token_missing", "Device token is missing."⟩

def UNAUTHORIZED_TOO_MANY_ATTEMPTS : KnownError :=
  ⟨StatusCode.UNAUTHORIZED, "too_many_attempts",
    "The client has failed to authenticate too many times."⟩

def UNAUTHORIZED_READ_ONLY : KnownError :=
  ⟨StatusCode.UNAUTHORIZED, "read_only",
    "The desired signal cannot be set since it is a read only signal."⟩

def FORBIDDEN_USER_FORBIDDEN : KnownError :=
  ⟨StatusCode.FORBIDDEN, "user_forbidden",
    "The user is not permitted to access the requested resource. Retrying does not help."⟩

def FORBIDDEN_USER_UNKNOWN : KnownError :=
  ⟨StatusCode.FORBIDDEN, "user_unknown", "The user is unknown. Retrying does not help."⟩

def FORBIDDEN_DEVICE_FORBIDDEN : KnownError :=
  ⟨StatusCode.FORBIDDEN, "device_forbidden",
    "The device is not permitted to access the requested resource. Retrying does not help."⟩

def FORBIDDEN_DEVICE_UNKNOWN : KnownError :=
  ⟨StatusCode.FORBIDDEN, "device_unknown", "The device is unknown. Retrying does not help."⟩

def NOT_FOUND_INVALID_PATH : KnownError :=
  ⟨StatusCode.NOT_FOUND, "invalid_path", "The specified data path does not exist."⟩

def NOT_FOUND_PRIVATE_PATH : KnownError :=
  ⟨StatusCode.NOT_FOUND, "private_path",
    "The specified data path is private and the request is not authorized to access signals on this path."⟩

def NOT_FOUND_INVALID_SUBSCRIPTION_ID : KnownError :=
  ⟨StatusCode.NOT_FOUND, "invalid_subscriptionId", "The specified subscription was not found."⟩

def NOT_ACCEPTABLE : KnownError :=
  ⟨StatusCode.NOT_ACCEPTABLE, "not_acceptable",
    "The server is unable to generate content that is acceptable to the client"⟩

def TOO_MANY_REQUESTS : KnownError :=
  ⟨StatusCode.TOO_MANY_REQUESTS, "too_many_requests",
    "The client has sent the server too many requests in a given amount of time."⟩

def BAD_GATEWAY : KnownError :=
  ⟨StatusCode.BAD_GATEWAY, "bad_gateway",
    "The server was acting as a gateway or proxy and received an invalid response from an upstream server."⟩

def SERVICE_UNAVAILABLE : KnownError :=
  ⟨StatusCode.SERVICE_UNAVAILABLE, "service_unavailable",
    "The server is currently unable to handle the request due to a temporary overload or scheduled maintenance (which may be alleviated after some delay)."⟩

def GATEWAY_TIMEOUT : KnownError :=
  ⟨StatusCode.GATEWAY_TIMEOUT, "gateway_timeout",
    "The server did not receive a timely response from an upstream server it needed to access in order to complete the request."⟩

/-- The 23 KnownError constants of api_error.rs, in source order. -/
def knownErrorCatalog : List KnownError :=
  [NOT_MODIFIED, BAD_REQUEST, BAD_REQUEST_FILTER_INVALID,
   UNAUTHORIZED_USER_TOKEN_EXPIRED, UNAUTHORIZED_USER_TOKEN_INVALID,
   UNAUTHORIZED_USER_TOKEN_MISSING, UNAUTHORIZED_DEVICE_TOKEN_EXPIRED,
   UNAUTHORIZED_DEVICE_TOKEN_INVALID, UNAUTHORIZED_DEVICE_TOKEN_MISSING,
   UNAUTHORIZED_TOO_MANY_ATTEMPTS, UNAUTHORIZED_READ_ONLY,
   FORBIDDEN_USER_FORBIDDEN, FORBIDDEN_USER_UNKNOWN,
   FORBIDDEN_DEVICE_FORBIDDEN, FORBIDDEN_DEVICE_UNKNOWN,
   NOT_FOUND_INVALID_PATH, NOT_FOUND_PRIVATE_PATH,
   NOT_FOUND_INVALID_SUBSCRIPTION_ID, NOT_ACCEPTABLE, TOO_MANY_REQUESTS,
   BAD_GATEWAY, SERVICE_UNAVAILABLE, GATEWAY_TIMEOUT]

/-- A JSON value, as produced by serde_json; enough structure for the wire
shapes this module serializes. -/
inductive JsonValue where
| null
| num (value : Nat)
| str (value : String)
| obj (fields : List (String × JsonValue))
deriving Repr

/-- Serde serialization of ReqID, modelled from the spec: an integer or
string wire form, untagged. -/
def ReqID.toJson : ReqID → JsonValue
| ReqID.ReqIDInt n => JsonValue.num n
| ReqID.ReqIDString s => JsonValue.str s

/-- Serde serialization of SubscriptionID, modelled from the spec: an
integer or string wire form, untagged. -/
def SubscriptionID.toJson : SubscriptionID → JsonValue
| SubscriptionID.SubscriptionIDInt n => JsonValue.num n
| SubscriptionID.SubscriptionIDString s => JsonValue.str s

/-- Serde serialization of ActionError (derived Serialize: fields in
declaration order, under their own names). -/
def ActionError.toJson (e : ActionError) : JsonValue :=
  JsonValue.obj
    [("number", JsonValue.num e.number),
     ("reason", JsonValue.str e.reason),
     ("message", JsonValue.str e.message)]

/-- The field list of the serde serialization of ActionErrorResponse:
internally tagged by the field named action with camelCase variant names
(serde tag and rename_all attributes), then the variant's fields in
declaration order, with request_id and subscription_id renamed to
requestId and subscriptionId (serde rename attributes). -/
def ActionErrorResponse.serializedFields : ActionErrorResponse → List (String × JsonValue)
| ActionErrorResponse.Authorize request_id error timestamp =>
    [("action", JsonValue.str "authorize"), ("requestId", request_id.toJson),
     ("error", error.toJson), ("timestamp", JsonValue.num timestamp)]
| ActionErrorResponse.GetMetadata request_id error timestamp =>
    [("action", JsonValue.str "getMetadata"), ("requestId", request_id.toJson),
     ("error", error.toJson), ("timestamp", JsonValue.num timestamp)]
| ActionErrorResponse.Get request_id error timestamp =>
    [("action", JsonValue.str "get"), ("requestId", request_id.toJson),
     ("error", error.toJson), ("timestamp", JsonValue.num timestamp)]
| ActionErrorResponse.Set request_id error timestamp =>
    [("action", JsonValue.str "set"), ("requestId", request_id.toJson),
     ("error", error.toJson), ("timestamp", JsonValue.num timestamp)]
| ActionErrorResponse.Subscribe request_id error timestamp =>
    [("action", JsonValue.str "subscribe"), ("requestId", request_id.toJson),
     ("error", error.toJson), ("timestamp", JsonValue.num timestamp)]
| ActionErrorResponse.Subscription request_id error timestamp =>
    [("action", JsonValue.str "subscription"), ("requestId", request_id.toJson),
     ("error", error.toJson), ("timestamp", JsonValue.num timestamp)]
| ActionErrorResponse.SubscriptionNotification error timestamp subscription_id =>
    [("action", JsonValue.str "subscriptionNotification"), ("error", error.toJson),
     ("timestamp", JsonValue.num timestamp), ("subscriptionId", subscription_id.toJson)]
| ActionErrorResponse.Unsubscribe request_id error timestamp subscription_id =>
    [("action", JsonValue.str "unsubscribe"), ("requestId", request_id.toJson),
     ("error", error.toJson), ("timestamp", JsonValue.num timestamp),
     ("subscriptionId", subscription_id.toJson)]
| ActionErrorResponse.UnsubscribeAll request_id error timestamp =>
    [("action", JsonValue.str "unsubscribeAll"), ("requestId", request_id.toJson),
     ("error", error.toJson), ("timestamp", JsonValue.num timestamp)]

/-- Serde serialization of ActionErrorResponse. -/
def ActionErrorResponse.toJson (r : ActionErrorResponse) : JsonValue :=
  JsonValue.obj r.serializedFields

/-- The keys present in the serialized form of an envelope. -/
def ActionErrorResponse.serializedKeys (r : ActionErrorResponse) : List String :=
  r.serializedFields.map Prod.fst

/-- Discriminator: is this envelope the Unsubscribe variant? -/
def ActionErrorResponse.isUnsubscribe : ActionErrorResponse → Bool
| ActionErrorResponse.Unsubscribe _ _ _ _ => true
| _ => false

/-- Discriminator: is this envelope the SubscriptionNotification variant? -/
def ActionErrorResponse.isSubscriptionNotif : ActionErrorResponse → Bool
| ActionErrorResponse.SubscriptionNotification _ _ _ => true
| _ => false

/-- The timestamp field of an envelope (every variant has one). -/
def ActionErrorResponse.timestamp : ActionErrorResponse → Nat
| ActionErrorResponse.Authorize _ _ t => t
| ActionErrorResponse.GetMetadata _ _ t => t
| ActionErrorResponse.Get _ _ t => t
| ActionErrorResponse.Set _ _ t => t
| ActionErrorResponse.Subscribe _ _ t => t
| ActionErrorResponse.Subscription _ _ t => t
| ActionErrorResponse.SubscriptionNotification _ t _ => t
| ActionErrorResponse.Unsubscribe _ _ t _ => t
| ActionErrorResponse.UnsubscribeAll _ _ t => t

/-- Modelled from the spec: the crate-level unix_timestamp_ms function is
not under src/; per the spec it is "a monotonic wall-clock source returning
milliseconds since a fixed epoch". A Clock gives the reading the n-th
successive call observes, non-decreasing in the call index. -/
structure Clock where
  reading : Nat → Nat
  mono : ∀ i j : Nat, i ≤ j → reading i ≤ reading j

/-- One invocation of an envelope constructor: the constructor's name and
its arguments other than the clock reading. -/
inductive EnvelopeCall where
| getError (request_id : ReqID) (error : ActionError)
| setError (request_id : ReqID) (error : ActionError)
| subscribeError (request_id : ReqID) (error : ActionError)
| unsubscribeError (request_id : ReqID) (subscription_id : SubscriptionID) (error : ActionError)
| unsubscribeAllError (request_id : ReqID) (error : ActionError)
| getMetadataError (request_id : ReqID) (error : ActionError)
| authorizeError (request_id : ReqID) (error : ActionError)
deriving DecidableEq, Repr

/-- Execute one constructor call at clock reading now. -/
def runCall (now : Nat) : EnvelopeCall → ActionErrorResponse
| EnvelopeCall.getError rid e => new_get_error now rid e
| EnvelopeCall.setError rid e => new_set_error now rid e
| EnvelopeCall.subscribeError rid e => new_subscribe_error now rid e
| EnvelopeCall.unsubscribeError rid sid e => new_unsubscribe_error now rid sid e
| EnvelopeCall.unsubscribeAllError rid e => new_unsubscribe_all_error now rid e
| EnvelopeCall.getMetadataError rid e => new_get_metadata_error now rid e
| EnvelopeCall.authorizeError rid e => new_authorize_error now rid e

/-- Execute a sequence of constructor calls, the k-th call (counting from
tick) observing the clock at index tick + k. -/
def runCallsFrom (clock : Clock) (tick : Nat) : List EnvelopeCall → List ActionErrorResponse
| [] => []
| c :: rest => runCall (clock.reading tick) c :: runCallsFrom clock (tick + 1) rest

/-- Execute a sequence of successive constructor calls within one process. -/
def runCalls (clock : Clock) (calls : List EnvelopeCall) : List ActionErrorResponse :=
  runCallsFrom clock 0 calls

/-- A concrete clock whose n-th reading is n, used to instantiate theorems. -/
def identityClock : Clock :=
  ⟨fun i => i, fun _ _ h => h⟩

theorem ReqID.reqIdJson_ne_null (rid : ReqID) : rid.toJson ≠ JsonValue.null := by
  cases rid <;> simp [ReqID.toJson]

theorem SubscriptionID.subIdJson_ne_null (sid : SubscriptionID) :
    sid.toJson ≠ JsonValue.null := by
  cases sid <;> simp [SubscriptionID.toJson]

theorem ActionError.errJson_ne_null (e : ActionError) : e.toJson ≠ JsonValue.null := by
  simp [ActionError.toJson]

theorem runCall_timestamp (now : Nat) (c : EnvelopeCall) :
    (runCall now c).timestamp = now := by
  cases c <;> rfl

theorem runCallsFrom_length (clock : Clock) (tick : Nat) (calls : List EnvelopeCall) :
    (runCallsFrom clock tick calls).length = calls.length := by
  induction calls generalizing tick with
  | nil => rfl
  | cons c rest ih => simp [runCallsFrom, ih]

theorem runCallsFrom_timestamp (clock : Clock) (tick : Nat) (calls : List EnvelopeCall)
    (i : Nat) (h : i < (runCallsFrom clock tick calls).length) :
    ((runCallsFrom clock tick calls).get ⟨i, h⟩).timestamp = clock.reading (tick + i) := by
  induction calls generalizing tick i with
  | nil => exact absurd h (by simp [runCallsFrom])
  | cons c rest ih =>
    cases i with
    | zero => simpa [runCallsFrom] using runCall_timestamp (clock.reading tick) c
    | succ n =>
      have hn : n < (runCallsFrom clock (tick + 1) rest).length := by
        have := h
        simpa [runCallsFrom] using this
      have := ih (tick + 1) n hn
      simp only [runCallsFrom, List.get_cons_succ]
      rw [this]
      congr 1
      omega

/-- Claim C1: each of the seven envelope constructors returns the envelope
variant matching its documented action, with the given request identifier,
subscription identifier (where present) and ActionError stored unchanged
and the timestamp set to the clock value now read at the moment of the
call; being total functions, they never fail. -/
theorem envelope_constructors_assemble (now : Nat) (request_id : ReqID)
    (subscription_id : SubscriptionID) (error : ActionError) :
    new_get_error now request_id error = ActionErrorResponse.Get request_id error now ∧
    new_set_error now request_id error = ActionErrorResponse.Set request_id error now ∧
    new_subscribe_error now request_id error =
      ActionErrorResponse.Subscribe request_id error now ∧
    new_unsubscribe_error now request_id subscription_id error =
      ActionErrorResponse.Unsubscribe request_id error now subscription_id ∧
    new_unsubscribe_all_error now request_id error =
      ActionErrorResponse.UnsubscribeAll request_id error now ∧
    new_get_metadata_error now request_id error =
      ActionErrorResponse.GetMetadata request_id error now ∧
    new_authorize_error now request_id error =
      ActionErrorResponse.Authorize request_id error now :=
  ⟨rfl, rfl, rfl, rfl, rfl, rfl, rfl⟩

/-- Claim C2: converting any I/O failure into an ActionError yields number
500 with empty message, and the result is one fixed value independent of
the failure, so no detail of the original failure appears in any field. -/
theorem actionError_from_io_error_generic (e : IoError) :
    ActionError.from_io_error e =
      { number := 500, reason := "Internal Server Error", message := "" } ∧
    ∀ e2 : IoError, ActionError.from_io_error e = ActionError.from_io_error e2 :=
  ⟨rfl, fun _ => rfl⟩

/-- Claim C3: converting any I/O failure directly into an envelope yields
the SubscriptionNotification variant with sentinel subscription id 0, an
ActionError with number 500 and empty message, and the clock value now
read at the moment of conversion as timestamp. -/
theorem response_from_io_error_sentinel (now : Nat) (e : IoError) :
    ActionErrorResponse.from_io_error now e =
      ActionErrorResponse.SubscriptionNotification
        { number := 500, reason := "Internal Server Error", message := "" } now
        (SubscriptionID.SubscriptionIDInt 0) :=
  rfl

/-- Claim C4: ActionError construction from a numeric status never fails:
the number equals the given status, the reason is the canonical reason
looked up for that status with empty-string fallback when the status is
not recognized, and the message is the given message; the bare-status
form is the same construction with an empty message. -/
theorem actionError_new_total (http_status_code : StatusCode) (message : String) :
    ActionError.new http_status_code message =
      { number := http_status_code
        reason := (StatusCode.canonical_reason http_status_code).getD ""
        message := message } ∧
    ActionError.from_status_code http_status_code = ActionError.new http_status_code "" :=
  ⟨rfl, rfl⟩

/-- Claim C5: converting a KnownError catalog entry into an ActionError
copies its status, reason and message verbatim, and its number field is
identical to that of the ActionError built from the entry's bare numeric
status with no message (the two can differ only in reason and message). -/
theorem known_error_number_agrees (k : KnownError) :
    ActionError.from_known k =
      { number := k.status, reason := k.reason, message := k.message } ∧
    (ActionError.from_known k).number = (ActionError.from_status_code k.status).number :=
  ⟨rfl, rfl⟩

/-- Claim C6: converting UNAUTHORIZED_USER_TOKEN_EXPIRED and passing it to
new_authorize_error with request id 42 yields the Authorize variant with
request id 42, error number 401, reason user_token_expired, message
User token has expired., and the clock value now read at the call. -/
theorem authorize_error_token_expired_scenario (now : Nat) :
    new_authorize_error now (ReqID.ReqIDInt 42)
        (ActionError.from_known UNAUTHORIZED_USER_TOKEN_EXPIRED) =
      ActionErrorResponse.Authorize (ReqID.ReqIDInt 42)
        { number := 401, reason := "user_token_expired", message := "User token has expired." }
        now :=
  rfl

/-- Claim C7: in the serialized form of every envelope, Unsubscribe and
SubscriptionNotification are the only variants with a subscriptionId
field, every variant except SubscriptionNotification has a requestId
field, and no field of any variant is serialized as null (an absent field
is omitted entirely). -/
theorem serialized_field_presence (r : ActionErrorResponse) :
    ("subscriptionId" ∈ r.serializedKeys ↔
      (r.isUnsubscribe = true ∨ r.isSubscriptionNotif = true)) ∧
    ("requestId" ∈ r.serializedKeys ↔ r.isSubscriptionNotif = false) ∧
    ∀ p ∈ r.serializedFields, p.2 ≠ JsonValue.null := by
  cases r <;>
    refine ⟨by simp [ActionErrorResponse.serializedKeys,
        ActionErrorResponse.serializedFields, ActionErrorResponse.isUnsubscribe,
        ActionErrorResponse.isSubscriptionNotif],
      by simp [ActionErrorResponse.serializedKeys,
        ActionErrorResponse.serializedFields, ActionErrorResponse.isSubscriptionNotif],
      ?_⟩ <;>
  · intro p hp
    simp only [ActionErrorResponse.serializedFields, List.mem_cons,
      List.not_mem_nil, or_false] at hp
    rcases hp with rfl | rfl | rfl | rfl | rfl <;>
      simp [ReqID.reqIdJson_ne_null, SubscriptionID.subIdJson_ne_null, ActionError.errJson_ne_null]

/-- Claim C8: the catalog is a fixed set of 23 KnownError constants whose
reason tokens are pairwise distinct, and whose numeric statuses are, in
source order, exactly the documented status classes 304, 400, 401, 403,
404, 406, 429, 502, 503 and 504. -/
theorem catalog_reasons_unique :
    (knownErrorCatalog.map KnownError.reason).Nodup ∧
    knownErrorCatalog.length = 23 ∧
    knownErrorCatalog.map KnownError.status =
      [304, 400, 400, 401, 401, 401, 401, 401, 401, 401, 401,
       403, 403, 403, 403, 404, 404, 404, 406, 429, 502, 503, 504] :=
  ⟨by decide, rfl, rfl⟩

/-- Claim C9: across any sequence of successive constructor calls within
one process, envelope timestamps are monotonically non-decreasing, since
every constructor stamps the clock reading of its call and the clock is
monotone. -/
theorem envelope_timestamps_monotone (clock : Clock) (calls : List EnvelopeCall)
    (i j : Nat) (hi : i < (runCalls clock calls).length)
    (hj : j < (runCalls clock calls).length) (hij : i ≤ j) :
    ((runCalls clock calls).get ⟨i, hi⟩).timestamp ≤
      ((runCalls clock calls).get ⟨j, hj⟩).timestamp := by
  unfold runCalls at hi hj ⊢
  rw [runCallsFrom_timestamp clock 0 calls i hi, runCallsFrom_timestamp clock 0 calls j hj]
  exact clock.mono (0 + i) (0 + j) (by omega)

/-- A sample error value used to instantiate the monotonicity theorem. -/
def sampleError : ActionError :=
  ActionError.from_known BAD_REQUEST

/-- A sample two-call sequence used to instantiate the monotonicity theorem. -/
def sampleCalls : List EnvelopeCall :=
  [EnvelopeCall.getError (ReqID.ReqIDInt 1) sampleError,
   EnvelopeCall.authorizeError (ReqID.ReqIDInt 2) sampleError]

/-- Witness for claim C9 at a concrete clock and call sequence. -/
theorem envelope_timestamps_monotone_witness :
    ((runCalls identityClock sampleCalls).get ⟨0, by decide⟩).timestamp ≤
      ((runCalls identityClock sampleCalls).get ⟨1, by decide⟩).timestamp :=
  envelope_timestamps_monotone identityClock sampleCalls 0 1 (by decide) (by decide)
    (by decide)

/-- Claim C10: new_deserialization_error is the ActionError with number
400, reason the HTTP canonical reason phrase Bad Request (not the catalog
token bad_request), and empty message. -/
theorem deserialization_error_canonical_400 :
    new_deserialization_error =
      { number := 400, reason := "Bad Request", message := "" } ∧
    new_deserialization_error.reason ≠ BAD_REQUEST.reason :=
  ⟨rfl, by decide⟩
